import Mathlib

/-!
# Verification of the APK pipeline orchestrator (`src/app.py`)

Shallow embedding of the command-pipeline orchestrator in `app.py`
(`ApkBuilderGUI`): the path derivations, the command planner
(`start_mode`), the shell-wrapping helper (`wrap`), the sequential
process runner (`execute_next` / `on_finished`), and the intermediate
artifact cleaner (the drained branch of `execute_next`).

Path functions model CPython's `posixpath` implementation of
`os.path.basename`, `os.path.dirname`, `os.path.splitext`,
`os.path.join` and `os.path.normpath`; the spec's examples all use
forward-slash paths, so the POSIX flavour is the relevant one.
Strings are modelled by Lean `String` (a sequence of characters,
matching Python's code-point strings for the ASCII data involved).
-/

namespace DumpXPack

/-! ## String primitives

Kernel-reducible counterparts of the Python string operations the
program uses, implemented by structural recursion on the character
list of a `String` (Python strings are sequences of code points). -/

/-- Model of Python `s.startswith(pre)`. -/
def strStartsWith (s pre : String) : Bool :=
  pre.data.isPrefixOf s.data

/-- Model of Python `s.endswith(suf)`. -/
def strEndsWith (s suf : String) : Bool :=
  suf.data.isSuffixOf s.data

/-- Model of Python `s.lower()` (ASCII data only in this program). -/
def strToLower (s : String) : String :=
  String.mk (s.data.map Char.toLower)

/-- Model of Python `s.split(sep)` for a one-character separator:
every maximal separator-free segment, keeping empty segments. -/
def splitChar (sep : Char) : List Char → List (List Char)
  | [] => [[]]
  | c :: cs =>
    let r := splitChar sep cs
    if c = sep then [] :: r
    else
      match r with
      | [] => [[c]]
      | h :: t => (c :: h) :: t

/-- Model of Python `sep.join(parts)` for a one-character separator. -/
def intercalateChar (sep : Char) : List (List Char) → List Char
  | [] => []
  | [x] => x
  | x :: xs => x ++ sep :: intercalateChar sep xs

/-- Lexicographic code-point comparison of character lists: exactly the
Python `<=` on strings. -/
def charListLe : List Char → List Char → Bool
  | [], _ => true
  | _ :: _, [] => false
  | a :: as, b :: bs =>
    if a < b then true
    else if b < a then false
    else charListLe as bs

/-- Model of the Python string comparison `a <= b`. -/
def strLe (a b : String) : Bool :=
  charListLe a.data b.data

/-- Descending order on strings, the sort key of
`sorted(names, reverse=True)`. -/
def strGe (a b : String) : Prop :=
  strLe b a = true

instance : DecidableRel strGe := fun a b => by
  unfold strGe
  infer_instance

/-! ## Python `posixpath` primitives -/

/-- Scan a character list, returning `(head, tail)` where `head` is the
prefix up to and including the last `'/'` (empty if there is none) and
`tail` is the suffix after the last `'/'`.  This is
`p[:i], p[i:]` with `i = p.rfind('/') + 1`. -/
def lastSlashSplitAux (l : List Char) : List Char × List Char :=
  l.foldl
    (fun acc c =>
      if c = '/' then (acc.1 ++ acc.2 ++ ['/'], []) else (acc.1, acc.2 ++ [c]))
    ([], [])

/-- Model of `posixpath.basename`: everything after the last `'/'`. -/
def pyBasename (p : String) : String :=
  String.mk (lastSlashSplitAux p.data).2

/-- Model of `posixpath.dirname`: everything before the last `'/'`, with trailing
slashes stripped unless the head consists only of slashes. -/
def pyDirname (p : String) : String :=
  let head := (lastSlashSplitAux p.data).1
  if head ≠ [] ∧ head.any (· ≠ '/') then
    String.mk ((head.reverse.dropWhile (· = '/')).reverse)
  else
    String.mk head

/-- Index of the last occurrence of `c` in `l` (Python `str.rfind`,
with `none` for `-1`). -/
def lastIdxOf (c : Char) (l : List Char) : Option Nat :=
  (l.reverse.findIdx? (· = c)).map (fun i => l.length - 1 - i)

/-- Model of `posixpath.splitext`: split off the extension at the last dot that
comes after the last slash, unless every character between them is a
dot (so that `.bashrc`-style names keep their dot). -/
def pySplitext (p : String) : String × String :=
  let l := p.data
  let sepIdx := lastIdxOf '/' l
  let dotIdx := lastIdxOf '.' l
  match dotIdx with
  | none => (p, "")
  | some d =>
    let fnStart : Nat := match sepIdx with | none => 0 | some i => i + 1
    let dotOk : Bool := match sepIdx with | none => true | some i => decide (i < d)
    if dotOk ∧ ((l.drop fnStart).take (d - fnStart)).any (· ≠ '.') then
      (String.mk (l.take d), String.mk (l.drop d))
    else
      (p, "")

/-- Model of `posixpath.join` for two components. -/
def pyJoin (a b : String) : String :=
  if strStartsWith b "/" then b
  else if a = "" ∨ strEndsWith a "/" then a ++ b
  else a ++ "/" ++ b

/-- Model of `posixpath.normpath`: collapse repeated separators, `.` components
and (outside the root) resolvable `..` components. -/
def pyNormpath (p : String) : String :=
  if p = "" then "."
  else
    let initialSlashes : Nat :=
      if strStartsWith p "/" then
        if strStartsWith p "//" ∧ ¬ strStartsWith p "///" then 2 else 1
      else 0
    let comps := splitChar '/' p.data
    let newComps := comps.foldl
      (fun acc comp =>
        if comp = [] ∨ comp = ['.'] then acc
        else if comp ≠ ['.', '.'] ∨ (initialSlashes = 0 ∧ acc = []) ∨ acc.getLast? = some ['.', '.'] then
          acc ++ [comp]
        else if acc ≠ [] then acc.dropLast
        else acc)
      []
    let path := String.mk (List.replicate initialSlashes '/' ++ intercalateChar '/' newComps)
    if path = "" then "." else path

/-! ## The shell-wrapping helper (`ApkBuilderGUI.wrap`, lines 335-340)

A Python `cmd` argument is either a `str` (the program token) or a
`list` of tokens; we model this with a sum type. -/

/-- Model of `ApkBuilderGUI.wrap`: a string program token is always turned into a
`cmd /c` shell invocation, quoting the token when it contains a space
and does not already start with a double quote; a list passes through
unchanged. -/
def wrap (cmd : Sum String (List String)) : List String :=
  match cmd with
  | Sum.inl c =>
    let c := if ' ' ∈ c.data ∧ ¬ strStartsWith c "\"" then "\"" ++ c ++ "\"" else c
    ["cmd", "/c", c]
  | Sum.inr l => l

/-! ## Data model -/

/-- The three operation modes, i.e. `stack.currentIndex()` = 0 / 1 / other. -/
inductive Mode where
  | dump
  | pack
  | keystoreGen
deriving DecidableEq, Repr

/-- The settings snapshot read by `start_mode` (`self.settings`), as the
total record of string fields the planner accesses.  Presence of the
keys in the underlying Python dict is treated separately by the
dict-level model below. -/
structure Settings where
  dump_file : String
  dump_out : String
  pack_dir : String
  keystore_path : String
  keystore_pass : String
  keystore_out : String
  gen_alias : String
  gen_alias_pass : String
  sdk_path : String
deriving DecidableEq, Repr

/-- The ambient filesystem/platform facts `start_mode` consults:
`shutil.which` results, `os.path.isfile`, `platform.system()`, and
`os.listdir` (`none` models the call raising `FileNotFoundError`). -/
structure Env where
  whichApktool : Option String
  whichApktoolBat : Option String
  whichJava : Option String
  isFile : String → Bool
  isWindows : Bool
  listdir : String → Option (List String)

/-- Outcome of one `start_mode` invocation.  `toolNotFound` is the
`QMessageBox.critical` early return, `validationError` the
`QMessageBox.warning` early return for empty required fields,
`exception` an uncaught Python exception during planning, and
`planned` records the command queue together with the
`self.built_apk` / `self.aligned_apk` fields and the directories
created by `os.makedirs`. -/
inductive PlanOutcome where
  | toolNotFound
  | validationError
  | exception
  | planned (queue : List (List String)) (builtApk alignedApk : Option String)
      (dirsCreated : List String)
deriving DecidableEq, Repr

/-- The command queue held in `self.commands` when the runner starts
(empty on every early return, since `start_mode` resets it first). -/
def queueOf : PlanOutcome → List (List String)
  | .planned q _ _ _ => q
  | _ => []

/-- Whether `start_mode` reaches the point where the `QProcess` is
created and `execute_next` is called. -/
def runnerInvoked : PlanOutcome → Bool
  | .planned _ _ _ _ => true
  | _ => false

/-! ## Path derivations used by the planner -/

/-- Dump-mode target directory (line 260):
`os.path.normpath(os.path.join(out, os.path.splitext(os.path.basename(apk))[0]))`. -/
def dumpTarget (apk out : String) : String :=
  pyNormpath (pyJoin out (pySplitext (pyBasename apk)).1)

/-- Pack-mode base apk name (line 274):
`os.path.splitext(os.path.basename(proj))[0] + '.apk'`. -/
def packApkName (proj : String) : String :=
  (pySplitext (pyBasename proj)).1 ++ ".apk"

/-- Pack-mode built-apk path (line 277). -/
def packBuilt (proj : String) : String :=
  pyNormpath (pyJoin (pyDirname proj) (packApkName proj))

/-- Pack-mode aligned-apk path (line 292). -/
def packAligned (proj : String) : String :=
  pyNormpath (pyJoin (pyDirname proj) ("aligned_" ++ packApkName proj))

/-- Pack-mode signed-apk path (line 294). -/
def packSigned (proj : String) : String :=
  pyNormpath (pyJoin (pyDirname proj) ("signed_" ++ packApkName proj))

/-! ## Tool location (lines 282-290) -/

/-- Python `sorted(names, reverse=True)`: the stable descending sort
by code-point order.  Any two sorted permutations of the same list
agree for an antisymmetric total order (`List.eq_of_perm_of_sorted`),
so insertion sort by the descending comparison `strGe` is
extensionally exactly the CPython sort. -/
def pySortedDesc (names : List String) : List String :=
  names.insertionSort strGe

/-- The zipalign/apksigner locator inlined in `start_mode`: with an SDK
root, pick `sorted(os.listdir(sdk/build-tools), reverse=True)[0]` and
resolve the two tools inside it, with an `.exe` suffix on Windows;
without one, fall back to the bare names.  `none` models the uncaught
exception when the listing raises or is empty. -/
def locateTools (env : Env) (sdkroot : String) : Option (String × String) :=
  if sdkroot ≠ "" then
    match env.listdir (pyJoin sdkroot "build-tools") with
    | none => none
    | some names =>
      match (pySortedDesc names).head? with
      | none => none
      | some bt =>
        let tools := pyJoin (pyJoin sdkroot "build-tools") bt
        let ext := if env.isWindows then ".exe" else ""
        some (pyJoin tools ("zipalign" ++ ext), pyJoin tools ("apksigner" ++ ext))
  else
    some ("zipalign", "apksigner")

/-! ## The command planner (`ApkBuilderGUI.start_mode`, lines 221-333) -/

/-- The `executor` prefix (lines 245-251): if the located apktool is a
`.bat` wrapper and Java is available, prefer `java -jar apktool.jar`
from the same directory when that jar exists. -/
def apktoolExecutor (env : Env) (apktool : String) : List String :=
  match env.whichJava with
  | some java =>
    if strEndsWith (strToLower apktool) ".bat" then
      let jar := pyJoin (pyDirname apktool) "apktool.jar"
      if env.isFile jar then [java, "-jar", jar] else [apktool]
    else [apktool]
  | none => [apktool]

/-- Model of `ApkBuilderGUI.start_mode`: validate the fields required by the
selected mode, derive the artifact paths, and build the command queue.
Mirrors the source line by line; Python truthiness of a string field
is `≠ ""`. -/
def startMode (env : Env) (mode : Mode) (s : Settings) : PlanOutcome :=
  match env.whichApktool.orElse (fun _ => env.whichApktoolBat) with
  | none => .toolNotFound
  | some apktool =>
    let executor := apktoolExecutor env apktool
    match mode with
    | .dump =>
      if s.dump_file = "" ∨ s.dump_out = "" then .validationError
      else
        let target := pyNormpath (pyJoin s.dump_out (pySplitext (pyBasename s.dump_file)).1)
        .planned [executor ++ ["d", "-f", s.dump_file, "-o", target]] none none [target]
    | .pack =>
      if s.pack_dir = "" ∨ s.keystore_path = "" ∨ s.keystore_pass = "" then .validationError
      else
        let outdir := pyDirname s.pack_dir
        let apkname := (pySplitext (pyBasename s.pack_dir)).1 ++ ".apk"
        let built := pyNormpath (pyJoin outdir apkname)
        match locateTools env s.sdk_path with
        | none => .exception
        | some (za, asgn) =>
          let aligned := pyNormpath (pyJoin outdir ("aligned_" ++ apkname))
          let signed := pyNormpath (pyJoin outdir ("signed_" ++ apkname))
          .planned
            [ executor ++ ["b", s.pack_dir, "-o", built],
              wrap (Sum.inl za) ++ ["-v", "-p", "4", built, aligned],
              wrap (Sum.inl asgn) ++
                ["sign", "-v", "--ks", s.keystore_path,
                 "--ks-pass", "pass:" ++ s.keystore_pass, "--out", signed, aligned] ]
            (some built) (some aligned) []
    | .keystoreGen =>
      if s.keystore_out = "" ∨ s.gen_alias = "" ∨ s.gen_alias_pass = "" then .validationError
      else
        .planned
          [[ "keytool", "-genkey", "-v",
             "-keystore", s.keystore_out,
             "-alias", s.gen_alias,
             "-keyalg", "RSA",
             "-keysize", "2048",
             "-validity", "10000",
             "-storepass", s.gen_alias_pass,
             "-keypass", s.gen_alias_pass ]]
          none none []

/-- The fields `start_mode` requires to be non-empty for each mode. -/
def requiredEmpty (mode : Mode) (s : Settings) : Prop :=
  match mode with
  | .dump => s.dump_file = "" ∨ s.dump_out = ""
  | .pack => s.pack_dir = "" ∨ s.keystore_path = "" ∨ s.keystore_pass = ""
  | .keystoreGen => s.keystore_out = "" ∨ s.gen_alias = "" ∨ s.gen_alias_pass = ""

instance (mode : Mode) (s : Settings) : Decidable (requiredEmpty mode s) := by
  unfold requiredEmpty
  cases mode <;> infer_instance

/-! ## The process runner (`execute_next` / `on_output` / `on_finished`)

The Qt event loop delivers, for each spawned process, its output
chunks and then its `finished` signal; `on_finished` re-enters
`execute_next`.  Under the premise of claim C8 — every command
launches successfully and terminates — this callback chain is the
sequential trace below: `launched i` is the `'>> cmd'` console line
plus `process.start`, `output i line` an `on_output` append, and
`finished i` the `'[Finished] ...'` line; `completed` is the final
`'All tasks completed'` notification. -/

/-- One observable event of a run. -/
inductive Event where
  | launched (i : Nat)
  | output (i : Nat) (line : String)
  | finished (i : Nat)
  | completed
deriving DecidableEq, Repr

/-- Whether an event is a `finished` notification. -/
def Event.isFinishedEvt : Event → Bool
  | .finished _ => true
  | _ => false

/-- The trace of `execute_next` started at index `idx`, where `outs i`
lists the non-empty output chunks command `i` produces.  Mirrors the
guard `self.current_index >= len(self.commands)` and the
`on_finished → execute_next` recursion. -/
def runFrom (cmds : List (List String)) (outs : Nat → List String) (idx : Nat) :
    List Event :=
  if _h : cmds.length ≤ idx then [Event.completed]
  else
    Event.launched idx ::
      ((outs idx).map (Event.output idx) ++ (Event.finished idx :: runFrom cmds outs (idx + 1)))
termination_by cmds.length - idx
decreasing_by omega

/-- The block of events a single successfully-run command contributes. -/
def cmdBlock (outs : Nat → List String) (i : Nat) : List Event :=
  Event.launched i :: ((outs i).map (Event.output i) ++ [Event.finished i])

/-! ## The artifact cleaner (drained branch of `execute_next`, lines 346-355) -/

/-- The user-visible actions of the drained branch: the `Done` dialog,
each `os.remove`, and re-enabling the `Run` button. -/
inductive UiAction where
  | doneDialog
  | removeFile (p : String)
  | enableRun
deriving DecidableEq, Repr

/-- One `if self.X and os.path.isfile(self.X): os.remove(self.X)` step.
`removeOk p = false` models `os.remove` raising `OSError`; the pair is
(actions appended, completed without exception). -/
def removeStep (acts : List UiAction) (p? : Option String)
    (isFile removeOk : String → Bool) : List UiAction × Bool :=
  match p? with
  | some p =>
    if p ≠ "" ∧ isFile p then
      if removeOk p then (acts ++ [.removeFile p], true) else (acts, false)
    else (acts, true)
  | none => (acts, true)

/-- The drained branch of `execute_next`: show the `Done` dialog, then
in Pack mode delete the intermediate apks (no exception handler around
`os.remove`, so a failure aborts the branch), then re-enable `Run`. -/
def drainActions (modeAtDrain : Mode) (built aligned : Option String)
    (isFile removeOk : String → Bool) : List UiAction × Bool :=
  let a0 := [UiAction.doneDialog]
  if modeAtDrain = .pack then
    let r1 := removeStep a0 built isFile removeOk
    if r1.2 then
      let r2 := removeStep r1.1 aligned isFile removeOk
      if r2.2 then (r2.1 ++ [.enableRun], true) else (r2.1, false)
    else (r1.1, false)
  else (a0 ++ [.enableRun], true)

/-- Model of `execute_next` as seen by the cleaner: the drained branch runs only
when the index has passed the end of the queue; otherwise the call
launches the next command and performs no UI-final actions. -/
def executeNextActions (queueLen idx : Nat) (modeAtDrain : Mode)
    (built aligned : Option String) (isFile removeOk : String → Bool) :
    List UiAction × Bool :=
  if queueLen ≤ idx then drainActions modeAtDrain built aligned isFile removeOk
  else ([], true)

/-- The files a list of UI actions deletes. -/
def deletedFiles (acts : List UiAction) : List String :=
  acts.filterMap (fun a => match a with | .removeFile p => some p | _ => none)

/-! ## The persisted-settings dict (`__init__` lines 33-42, `load_settings`) -/

/-- The defaults dict literal assigned to `self.settings` in
`__init__`.  Note it has no `gen_alias` / `gen_alias_pass` entries,
although `start_mode` line 309 reads both. -/
def defaultSettingsDict : List (String × String) :=
  [("dump_file", ""), ("dump_out", ""), ("pack_dir", ""),
   ("keystore_path", ""), ("keystore_pass", ""), ("keystore_out", ""),
   ("sdk_path", "")]

/-- Python dict lookup `d[k]`, with `none` modelling `KeyError`. -/
def dictGet (d : List (String × String)) (k : String) : Option String :=
  (d.find? (fun e => e.1 = k)).map (fun e => e.2)

/-- Python `dict.update`: entries of `upd` win over entries of `d`
(observationally, via `dictGet`). -/
def dictUpdate (d upd : List (String × String)) : List (String × String) :=
  upd ++ d

/-- Model of `load_settings` when the YAML file parses to a mapping `loaded`:
`self.settings.update(loaded)` on the defaults. -/
def loadSettings (loaded : List (String × String)) : List (String × String) :=
  dictUpdate defaultSettingsDict loaded

/-- The tuple read on line 309,
`s['keystore_out'], s['gen_alias'], s['gen_alias_pass']`, with `none`
modelling an uncaught `KeyError`. -/
def genFieldsLookup (d : List (String × String)) :
    Option (String × String × String) := do
  let kout ← dictGet d "keystore_out"
  let al ← dictGet d "gen_alias"
  let ap ← dictGet d "gen_alias_pass"
  pure (kout, al, ap)

end DumpXPack

namespace DumpXPack

/-! ## Concrete fixtures -/

/-- An environment with apktool as a native executable on the search
path and no SDK facts. -/
def sampleEnv : Env where
  whichApktool := some "/usr/bin/apktool"
  whichApktoolBat := none
  whichJava := none
  isFile := fun _ => false
  isWindows := false
  listdir := fun _ => none

/-- A settings snapshot with every field empty. -/
def emptySettings : Settings where
  dump_file := ""
  dump_out := ""
  pack_dir := ""
  keystore_path := ""
  keystore_pass := ""
  keystore_out := ""
  gen_alias := ""
  gen_alias_pass := ""
  sdk_path := ""

/-- Pack-mode settings over the given project directory. -/
def packSettings (proj : String) : Settings :=
  { emptySettings with pack_dir := proj, keystore_path := "/k.jks", keystore_pass := "pw" }

/-- Dump-mode settings for the spec example. -/
def dumpSettings : Settings :=
  { emptySettings with dump_file := "/tmp/app.apk", dump_out := "/out" }

/-- An environment whose SDK build-tools directory lists the versions
of the spec example, on Windows. -/
def sdkSampleEnv : Env :=
  { sampleEnv with listdir := fun _ => some ["29.0.2", "30.0.3", "28.0.3"], isWindows := true }

/-- An environment whose SDK build-tools directory exists but holds no
entries. -/
def emptyBuildToolsEnv : Env :=
  { sampleEnv with listdir := fun _ => some [] }

/-- The `self.built_apk` field recorded by planning. -/
def builtApkOf : PlanOutcome → Option String
  | .planned _ b _ _ => b
  | _ => none

/-! ## Facts about the lexicographic comparison -/

theorem charListLe_refl (l : List Char) : charListLe l l = true := by
  induction l with
  | nil => rfl
  | cons a as ih => simp [charListLe, lt_irrefl, ih]

theorem charListLe_total (x y : List Char) :
    charListLe x y = true ∨ charListLe y x = true := by
  induction x generalizing y with
  | nil => left; rfl
  | cons a as ih =>
    cases y with
    | nil => right; rfl
    | cons b bs =>
      by_cases hab : a < b
      · left; simp [charListLe, hab]
      · by_cases hba : b < a
        · right; simp [charListLe, hba]
        · rcases ih bs with h | h
          · left; simp [charListLe, hab, hba, h]
          · right; simp [charListLe, hab, hba, h]

theorem charListLe_trans {x y z : List Char} (h1 : charListLe x y = true)
    (h2 : charListLe y z = true) : charListLe x z = true := by
  induction x generalizing y z with
  | nil => rfl
  | cons a as ih =>
    cases y with
    | nil => simp [charListLe] at h1
    | cons b bs =>
      cases z with
      | nil => simp [charListLe] at h2
      | cons c cs =>
        simp only [charListLe] at h1 h2 ⊢
        by_cases hab : a < b
        · by_cases hbc : b < c
          · simp [lt_trans hab hbc]
          · by_cases hcb : c < b
            · simp [hcb, lt_asymm hcb] at h2
            · have hbc' : b = c := le_antisymm (not_lt.mp hcb) (not_lt.mp hbc)
              simp [hbc' ▸ hab]
        · by_cases hba : b < a
          · simp [hba, lt_asymm hba] at h1
          · have hab' : a = b := le_antisymm (not_lt.mp hba) (not_lt.mp hab)
            subst hab'
            simp only [lt_self_iff_false, if_false, ite_false] at h1
            by_cases hac : a < c
            · simp [hac]
            · by_cases hca : c < a
              · simp [hac, hca] at h2
              · simp only [if_neg hac, if_neg hca] at h2 ⊢
                exact ih h1 h2

instance : IsTotal String strGe :=
  ⟨fun a b => (charListLe_total b.data a.data).elim Or.inl Or.inr⟩

instance : IsTrans String strGe :=
  ⟨fun _ _ _ h1 h2 => charListLe_trans h2 h1⟩

/-- Head of the descending sort: a maximum of the input list. -/
theorem pySortedDesc_head_max {names : List String} {sel : String}
    (hsel : (pySortedDesc names).head? = some sel) :
    sel ∈ names ∧ ∀ x ∈ names, strLe x sel = true := by
  have hs : List.Sorted strGe (pySortedDesc names) := List.sorted_insertionSort strGe names
  have hperm : (pySortedDesc names).Perm names := List.perm_insertionSort strGe names
  cases hl : pySortedDesc names with
  | nil => rw [hl] at hsel; exact absurd hsel (by simp)
  | cons a t =>
    rw [hl] at hsel hs hperm
    have ha : a = sel := by simpa using hsel
    subst ha
    refine ⟨hperm.mem_iff.mp (List.mem_cons_self _ _), ?_⟩
    intro x hx
    rcases List.mem_cons.mp (hperm.mem_iff.mpr hx) with h | h
    · subst h; exact charListLe_refl _
    · exact List.rel_of_sorted_cons hs x h

end DumpXPack

namespace DumpXPack

/-! ## Claim C1: the shell-wrapping function -/

/-- Claim C1, counterexample: a command whose program token is the
whitespace-free string `zipalign` is not returned unchanged — `wrap`
still rewrites it into a `cmd /c` shell invocation. -/
theorem wrap_noSpace_counterexample :
    wrap (Sum.inl "zipalign") = ["cmd", "/c", "zipalign"] ∧
    wrap (Sum.inl "zipalign") ≠ ["zipalign"] :=
  ⟨by decide, by decide⟩

/-- Claim C1 (amended): `wrap` leaves a structured-list command
unchanged, but a string program token is always rewritten into a
`cmd /c` shell invocation — quoted exactly when the token contains a
space character and does not already start with a double quote — even
when the token has no whitespace; the spec example with spaces in the
path is quoted. -/
theorem wrap_characterization (c : String) (l : List String) :
    wrap (Sum.inr l) = l ∧
    wrap (Sum.inl c) =
      ["cmd", "/c",
        if ' ' ∈ c.data ∧ ¬ strStartsWith c "\"" then "\"" ++ c ++ "\"" else c] ∧
    wrap (Sum.inl "C:\\Program Files\\sdk\\zipalign.exe") =
      ["cmd", "/c", "\"C:\\Program Files\\sdk\\zipalign.exe\""] :=
  ⟨rfl, rfl, by decide⟩

/-! ## Claim C2: Pack-mode artifact paths -/

/-- Claim C2, counterexample: the planner strips the project
directory's extension before appending `.apk`, so for project
directory `/x/My.App` the built-apk recorded by planning is
`/x/My.apk`, not the parent joined with base name plus `.apk`
(`/x/My.App.apk`) that the claim states. -/
theorem packPaths_basename_counterexample :
    builtApkOf (startMode sampleEnv .pack (packSettings "/x/My.App")) = some "/x/My.apk" ∧
    pyJoin (pyDirname "/x/My.App") (pyBasename "/x/My.App" ++ ".apk") = "/x/My.App.apk" ∧
    builtApkOf (startMode sampleEnv .pack (packSettings "/x/My.App")) ≠
      some (pyJoin (pyDirname "/x/My.App") (pyBasename "/x/My.App" ++ ".apk")) :=
  ⟨by decide, by decide, by decide⟩

/-- Claim C2 (amended): for every project directory path, the Pack
planner derives the three artifact paths as pure functions of it —
built-apk = normalized(parent joined with (base name with extension
stripped + ".apk")), aligned-apk and signed-apk the same with the
"aligned_" and "signed_" name prefixes — and for `/x/MyApp` these are
`/x/MyApp.apk`, `/x/aligned_MyApp.apk` and `/x/signed_MyApp.apk`. -/
theorem startMode_pack_paths (env : Env) (s : Settings) (apkt za asgn : String)
    (hak : env.whichApktool.orElse (fun _ => env.whichApktoolBat) = some apkt)
    (h1 : s.pack_dir ≠ "") (h2 : s.keystore_path ≠ "") (h3 : s.keystore_pass ≠ "")
    (hloc : locateTools env s.sdk_path = some (za, asgn)) :
    startMode env .pack s =
      .planned
        [ apktoolExecutor env apkt ++ ["b", s.pack_dir, "-o", packBuilt s.pack_dir],
          wrap (Sum.inl za) ++
            ["-v", "-p", "4", packBuilt s.pack_dir, packAligned s.pack_dir],
          wrap (Sum.inl asgn) ++
            ["sign", "-v", "--ks", s.keystore_path,
             "--ks-pass", "pass:" ++ s.keystore_pass,
             "--out", packSigned s.pack_dir, packAligned s.pack_dir] ]
        (some (packBuilt s.pack_dir)) (some (packAligned s.pack_dir)) [] ∧
    packBuilt "/x/MyApp" = "/x/MyApp.apk" ∧
    packAligned "/x/MyApp" = "/x/aligned_MyApp.apk" ∧
    packSigned "/x/MyApp" = "/x/signed_MyApp.apk" := by
  refine ⟨?_, by decide, by decide, by decide⟩
  have hcond : ¬ (s.pack_dir = "" ∨ s.keystore_path = "" ∨ s.keystore_pass = "") := by
    simp [h1, h2, h3]
  unfold startMode
  simp only [hak]
  rw [if_neg hcond]
  simp only [hloc]
  rfl

/-- Witness for `startMode_pack_paths`, at project directory
`/x/MyApp` in an environment with apktool on the path and no SDK
root. -/
theorem startMode_pack_paths_witness :
    startMode sampleEnv .pack (packSettings "/x/MyApp") =
      .planned
        [["/usr/bin/apktool", "b", "/x/MyApp", "-o", "/x/MyApp.apk"],
         ["cmd", "/c", "zipalign", "-v", "-p", "4", "/x/MyApp.apk", "/x/aligned_MyApp.apk"],
         ["cmd", "/c", "apksigner", "sign", "-v", "--ks", "/k.jks", "--ks-pass", "pass:pw",
          "--out", "/x/signed_MyApp.apk", "/x/aligned_MyApp.apk"]]
        (some "/x/MyApp.apk") (some "/x/aligned_MyApp.apk") [] ∧
    packBuilt "/x/MyApp" = "/x/MyApp.apk" ∧
    packAligned "/x/MyApp" = "/x/aligned_MyApp.apk" ∧
    packSigned "/x/MyApp" = "/x/signed_MyApp.apk" :=
  startMode_pack_paths sampleEnv (packSettings "/x/MyApp") "/usr/bin/apktool"
    "zipalign" "apksigner" rfl (by decide) (by decide) (by decide) rfl

/-! ## Claim C3: empty required fields -/

/-- Claim C3: with the disassembler tool present, for every mode and
every settings snapshot in which a field required by that mode is
empty, `start_mode` stops at the recoverable validation warning, the
command queue stays empty, and the process runner is never invoked. -/
theorem startMode_requiredEmpty_validation (env : Env) (mode : Mode) (s : Settings)
    (apkt : String)
    (hak : env.whichApktool.orElse (fun _ => env.whichApktoolBat) = some apkt)
    (hreq : requiredEmpty mode s) :
    startMode env mode s = .validationError ∧
    queueOf (startMode env mode s) = [] ∧
    runnerInvoked (startMode env mode s) = false := by
  have hmain : startMode env mode s = .validationError := by
    cases mode with
    | dump =>
      unfold startMode
      simp only [hak]
      exact if_pos hreq
    | pack =>
      unfold startMode
      simp only [hak]
      exact if_pos hreq
    | keystoreGen =>
      unfold startMode
      simp only [hak]
      exact if_pos hreq
  exact ⟨hmain, by rw [hmain]; rfl, by rw [hmain]; rfl⟩

/-- Witness for `startMode_requiredEmpty_validation` at Dump mode with
all fields empty. -/
theorem startMode_requiredEmpty_validation_witness :
    startMode sampleEnv .dump emptySettings = .validationError ∧
    queueOf (startMode sampleEnv .dump emptySettings) = [] ∧
    runnerInvoked (startMode sampleEnv .dump emptySettings) = false :=
  startMode_requiredEmpty_validation sampleEnv .dump emptySettings "/usr/bin/apktool"
    rfl (Or.inl rfl)

/-! ## Claim C4: the settings snapshot's keys -/

/-- Claim C4 (code bug): the settings mapping does not contain every
field a mode reads — the defaults dict in `__init__` lacks the
`gen_alias` and `gen_alias_pass` keys that KeystoreGen mode reads on
line 309, so with a persisted store missing them (in particular a
fresh one) the read raises `KeyError`; merging a store without the key
leaves it missing, while the other fields do default. -/
theorem settings_gen_alias_missing :
    dictGet defaultSettingsDict "gen_alias" = none ∧
    dictGet defaultSettingsDict "gen_alias_pass" = none ∧
    genFieldsLookup (loadSettings []) = none ∧
    (∀ loaded, dictGet (loadSettings loaded) "gen_alias" = dictGet loaded "gen_alias") ∧
    dictGet defaultSettingsDict "keystore_out" = some "" := by
  refine ⟨by decide, by decide, by decide, ?_, by decide⟩
  intro loaded
  unfold loadSettings dictUpdate dictGet
  rw [List.find?_append]
  have h : defaultSettingsDict.find? (fun e => e.1 = "gen_alias") = none := by decide
  rw [h, Option.or_none]

/-! ## Claim C7: the Dump-mode plan -/

/-- Claim C7: for every non-empty source package and output directory,
Dump mode computes the target directory as the output directory joined
with the source's base name with extension stripped (for
`/tmp/app.apk` and `/out` this is `/out/app`), records that directory
as created, and queues exactly one disassemble command
`<tool> d -f <source> -o <target>`. -/
theorem startMode_dump_plan (env : Env) (s : Settings) (apkt : String)
    (hak : env.whichApktool.orElse (fun _ => env.whichApktoolBat) = some apkt)
    (h1 : s.dump_file ≠ "") (h2 : s.dump_out ≠ "") :
    startMode env .dump s =
      .planned
        [apktoolExecutor env apkt ++
          ["d", "-f", s.dump_file, "-o", dumpTarget s.dump_file s.dump_out]]
        none none [dumpTarget s.dump_file s.dump_out] ∧
    dumpTarget "/tmp/app.apk" "/out" = "/out/app" := by
  refine ⟨?_, by decide⟩
  have hcond : ¬ (s.dump_file = "" ∨ s.dump_out = "") := by simp [h1, h2]
  unfold startMode
  simp only [hak]
  rw [if_neg hcond]
  rfl

/-- Witness for `startMode_dump_plan` at the spec example inputs. -/
theorem startMode_dump_plan_witness :
    startMode sampleEnv .dump dumpSettings =
      .planned [["/usr/bin/apktool", "d", "-f", "/tmp/app.apk", "-o", "/out/app"]]
        none none ["/out/app"] ∧
    dumpTarget "/tmp/app.apk" "/out" = "/out/app" :=
  startMode_dump_plan sampleEnv dumpSettings "/usr/bin/apktool" rfl
    (by decide) (by decide)

/-! ## Claim C10: missing or empty build-tools directory -/

/-- Claim C10: in Pack mode with all required fields present and a
non-empty SDK root whose build-tools directory is absent (`listdir`
raises) or empty (indexing the empty sorted listing raises), planning
ends in an uncaught exception rather than falling back to the search
path, and no external command is executed for the run. -/
theorem startMode_missing_buildTools_exception (env : Env) (s : Settings) (apkt : String)
    (hak : env.whichApktool.orElse (fun _ => env.whichApktoolBat) = some apkt)
    (h1 : s.pack_dir ≠ "") (h2 : s.keystore_path ≠ "") (h3 : s.keystore_pass ≠ "")
    (hsdk : s.sdk_path ≠ "")
    (hbt : env.listdir (pyJoin s.sdk_path "build-tools") = none ∨
           env.listdir (pyJoin s.sdk_path "build-tools") = some []) :
    startMode env .pack s = .exception ∧
    runnerInvoked (startMode env .pack s) = false ∧
    queueOf (startMode env .pack s) = [] := by
  have hloc : locateTools env s.sdk_path = none := by
    unfold locateTools
    rw [if_pos hsdk]
    rcases hbt with h | h
    · rw [h]
    · rw [h]
      rfl
  have hmain : startMode env .pack s = .exception := by
    have hcond : ¬ (s.pack_dir = "" ∨ s.keystore_path = "" ∨ s.keystore_pass = "") := by
      simp [h1, h2, h3]
    unfold startMode
    simp only [hak]
    rw [if_neg hcond]
    simp only [hloc]
  exact ⟨hmain, by rw [hmain]; rfl, by rw [hmain]; rfl⟩

/-- Witness for `startMode_missing_buildTools_exception` with an SDK
root whose build-tools listing is empty. -/
theorem startMode_missing_buildTools_exception_witness :
    startMode emptyBuildToolsEnv .pack { packSettings "/x/MyApp" with sdk_path := "/sdk" } =
      .exception ∧
    runnerInvoked
      (startMode emptyBuildToolsEnv .pack
        { packSettings "/x/MyApp" with sdk_path := "/sdk" }) = false ∧
    queueOf
      (startMode emptyBuildToolsEnv .pack
        { packSettings "/x/MyApp" with sdk_path := "/sdk" }) = [] :=
  startMode_missing_buildTools_exception emptyBuildToolsEnv
    { packSettings "/x/MyApp" with sdk_path := "/sdk" } "/usr/bin/apktool"
    rfl (by decide) (by decide) (by decide) (by decide) (Or.inr rfl)

end DumpXPack

namespace DumpXPack

/-! ## Claim C5: the artifact cleaner's frame -/

/-- Claim C5: the cleaner (with `os.remove` succeeding) deletes exactly
the built-apk and aligned-apk — each only when `os.path.isfile` holds —
precisely when the queue index has passed the end of the queue and the
mode at drain time is Pack; in every other combination (Dump,
KeystoreGen, or an undrained queue) it deletes nothing, and the
signed-apk path, distinct from both intermediates, is never deleted. -/
theorem cleaner_deletes_characterization (queueLen idx : Nat) (modeAtDrain : Mode)
    (b a sgd : String) (isFile : String → Bool)
    (hb : b ≠ "") (ha : a ≠ "") (hsb : sgd ≠ b) (hsa : sgd ≠ a) :
    deletedFiles
        (executeNextActions queueLen idx modeAtDrain (some b) (some a) isFile
          (fun _ => true)).1 =
      (if queueLen ≤ idx ∧ modeAtDrain = Mode.pack then
        (if isFile b then [b] else []) ++ (if isFile a then [a] else [])
      else []) ∧
    sgd ∉ deletedFiles
        (executeNextActions queueLen idx modeAtDrain (some b) (some a) isFile
          (fun _ => true)).1 := by
  unfold executeNextActions
  by_cases hq : queueLen ≤ idx
  · rw [if_pos hq]
    unfold drainActions removeStep
    by_cases hm : modeAtDrain = Mode.pack <;>
      by_cases hfb : isFile b <;> by_cases hfa : isFile a <;>
        simp_all [deletedFiles, hb, ha, hsb, hsa]
  · rw [if_neg hq]
    simp [deletedFiles, hq]

/-- Witness for `cleaner_deletes_characterization` at the drained
Pack-mode run over the `/x/MyApp` artifact paths. -/
theorem cleaner_deletes_characterization_witness :
    deletedFiles
        (executeNextActions 3 3 Mode.pack (some "/x/MyApp.apk")
          (some "/x/aligned_MyApp.apk") (fun _ => true) (fun _ => true)).1 =
      (if 3 ≤ 3 ∧ Mode.pack = Mode.pack then
        (if (fun _ => true : String → Bool) "/x/MyApp.apk" then ["/x/MyApp.apk"] else []) ++
          (if (fun _ => true : String → Bool) "/x/aligned_MyApp.apk" then
            ["/x/aligned_MyApp.apk"] else [])
      else []) ∧
    "/x/signed_MyApp.apk" ∉ deletedFiles
        (executeNextActions 3 3 Mode.pack (some "/x/MyApp.apk")
          (some "/x/aligned_MyApp.apk") (fun _ => true) (fun _ => true)).1 :=
  cleaner_deletes_characterization 3 3 Mode.pack "/x/MyApp.apk" "/x/aligned_MyApp.apk"
    "/x/signed_MyApp.apk" (fun _ => true) (by decide) (by decide) (by decide) (by decide)

/-! ## Claim C9: failure of an intermediate deletion -/

/-- Claim C9, counterexample: when `os.remove` of the built-apk raises,
nothing catches or logs it — the drained branch stops after the `Done`
dialog with the exception escaping (completion flag `false`) and the
`Run` control never re-enabled, contradicting the claim that the
failure is a logged, non-fatal event with no exception escaping the
cleaner. -/
theorem cleanup_failure_counterexample :
    drainActions Mode.pack (some "/x/MyApp.apk") (some "/x/aligned_MyApp.apk")
        (fun _ => true) (fun _ => false) =
      ([UiAction.doneDialog], false) ∧
    UiAction.enableRun ∉
      (drainActions Mode.pack (some "/x/MyApp.apk") (some "/x/aligned_MyApp.apk")
        (fun _ => true) (fun _ => false)).1 :=
  ⟨by decide, by decide⟩

/-- Claim C9 (amended): if deleting the built-apk during Pack-mode
cleanup fails, the error propagates out of the cleaner unhandled and
unlogged; the completion dialog has already been shown before the
deletion, but the rest of the branch — including re-enabling the Run
control — is skipped. -/
theorem cleanup_failure_propagates (aligned : Option String)
    (isFile removeOk : String → Bool) (b : String)
    (hb : b ≠ "") (hf : isFile b = true) (hr : removeOk b = false) :
    drainActions Mode.pack (some b) aligned isFile removeOk =
      ([UiAction.doneDialog], false) := by
  unfold drainActions removeStep
  simp [hb, hf, hr]

/-- Witness for `cleanup_failure_propagates` with the `/x/MyApp`
artifacts present and every removal failing. -/
theorem cleanup_failure_propagates_witness :
    drainActions Mode.pack (some "/x/MyApp.apk") (some "/x/aligned_MyApp.apk")
        (fun _ => true) (fun _ => false) =
      ([UiAction.doneDialog], false) :=
  cleanup_failure_propagates (some "/x/aligned_MyApp.apk") (fun _ => true)
    (fun _ => false) "/x/MyApp.apk" (by decide) (by decide) (by decide)

end DumpXPack

namespace DumpXPack

/-! ## Claim C6: build-tools version selection -/

/-- Claim C6: with an SDK root configured and a build-tools listing
available, the locator selects the entry at the head of the descending
code-point sort — a lexicographically greatest element of the listing;
for the spec listing 29.0.2 / 30.0.3 / 28.0.3 it is 30.0.3 — and
resolves zipalign and apksigner inside that subdirectory, appending
`.exe` exactly on Windows; with no SDK root configured it falls back
to the bare tool names resolved on the search path. -/
theorem locateTools_selects_greatest (env : Env) (sdk sel : String) (names : List String)
    (hsdk : sdk ≠ "")
    (hls : env.listdir (pyJoin sdk "build-tools") = some names)
    (hsel : (pySortedDesc names).head? = some sel) :
    (sel ∈ names ∧ ∀ x ∈ names, strLe x sel = true) ∧
    locateTools env sdk =
      some
        (pyJoin (pyJoin (pyJoin sdk "build-tools") sel)
          ("zipalign" ++ if env.isWindows then ".exe" else ""),
         pyJoin (pyJoin (pyJoin sdk "build-tools") sel)
          ("apksigner" ++ if env.isWindows then ".exe" else "")) ∧
    (pySortedDesc ["29.0.2", "30.0.3", "28.0.3"]).head? = some "30.0.3" ∧
    locateTools env "" = some ("zipalign", "apksigner") := by
  refine ⟨pySortedDesc_head_max hsel, ?_, by decide, rfl⟩
  unfold locateTools
  rw [if_pos hsdk]
  simp only [hls, hsel]

/-- Witness for `locateTools_selects_greatest` at the spec example on
Windows. -/
theorem locateTools_selects_greatest_witness :
    locateTools sdkSampleEnv "/sdk" =
      some ("/sdk/build-tools/30.0.3/zipalign.exe",
            "/sdk/build-tools/30.0.3/apksigner.exe") ∧
    (pySortedDesc ["29.0.2", "30.0.3", "28.0.3"]).head? = some "30.0.3" ∧
    locateTools sdkSampleEnv "" = some ("zipalign", "apksigner") :=
  (locateTools_selects_greatest sdkSampleEnv "/sdk" "30.0.3"
    ["29.0.2", "30.0.3", "28.0.3"] (by decide) rfl (by decide)).2

end DumpXPack

namespace DumpXPack

/-! ## Claim C8: sequential trace of the runner -/

/-- Unfolding of the callback chain started at index `idx`: one block
of events per remaining command, then the completion notification. -/
theorem runFrom_eq_blocks (cmds : List (List String)) (outs : Nat → List String)
    (idx : Nat) :
    runFrom cmds outs idx =
      ((List.range' idx (cmds.length - idx)).flatMap (cmdBlock outs)) ++
        [Event.completed] := by
  by_cases h : cmds.length ≤ idx
  · unfold runFrom
    rw [dif_pos h, Nat.sub_eq_zero_of_le h]
    rfl
  · have hn : cmds.length - idx = (cmds.length - (idx + 1)) + 1 := by omega
    have ih := runFrom_eq_blocks cmds outs (idx + 1)
    unfold runFrom
    rw [dif_neg h, hn, List.range'_succ]
    simp [ih, cmdBlock, List.flatMap_cons]
termination_by cmds.length - idx
decreasing_by omega

/-- Filtering one command block for finished events keeps exactly its
finished notification. -/
theorem cmdBlock_filter_finished (outs : Nat → List String) (i : Nat) :
    (cmdBlock outs i).filter Event.isFinishedEvt = [Event.finished i] := by
  unfold cmdBlock
  simp [List.filter_cons, List.filter_append, List.filter_map,
    Event.isFinishedEvt, Function.comp]

/-- Filtering a run of blocks for finished events lists the block
indices in order. -/
theorem blocks_filter_finished (outs : Nat → List String) (l : List Nat) :
    (l.flatMap (cmdBlock outs)).filter Event.isFinishedEvt = l.map Event.finished := by
  induction l with
  | nil => rfl
  | cons i t ih =>
    simp only [List.flatMap_cons, List.filter_append, ih, List.map_cons,
      cmdBlock_filter_finished]
    rfl

/-- No command block contains the completion notification. -/
theorem completed_not_mem_blocks (outs : Nat → List String) (l : List Nat) :
    Event.completed ∉ l.flatMap (cmdBlock outs) := by
  intro hmem
  rw [List.mem_flatMap] at hmem
  obtain ⟨i, _, hin⟩ := hmem
  simp [cmdBlock, List.mem_append, List.mem_map] at hin

/-- Claim C8: when every command of the queue launches successfully,
the run emits exactly one finished notification per command, in queue
order, all before the completion notification (which is the final
event and occurs nowhere earlier); and the output lines of command `i`
and then its finished line are all emitted before command `i + 1` is
launched. -/
theorem runner_trace_ordering (cmds : List (List String)) (outs : Nat → List String) :
    (runFrom cmds outs 0).filter Event.isFinishedEvt =
      (List.range cmds.length).map Event.finished ∧
    (runFrom cmds outs 0).getLast? = some Event.completed ∧
    Event.completed ∉ (runFrom cmds outs 0).dropLast ∧
    ∀ i, i + 1 < cmds.length →
      ∃ pre post,
        runFrom cmds outs 0 = pre ++ Event.finished i :: Event.launched (i + 1) :: post ∧
        ∀ line ∈ outs i, Event.output i line ∈ pre := by
  have key := runFrom_eq_blocks cmds outs 0
  rw [Nat.sub_zero] at key
  refine ⟨?_, ?_, ?_, ?_⟩
  · rw [key, List.filter_append, blocks_filter_finished]
    simp [Event.isFinishedEvt, List.range_eq_range']
  · rw [key]
    exact List.getLast?_concat _
  · rw [key, List.dropLast_concat]
    exact completed_not_mem_blocks outs _
  · intro i hi
    have h1 : List.range' 0 (i + 1) = List.range' 0 i ++ [i] := by
      simpa using @List.range'_concat 1 0 i
    have h2 : List.range' (i + 1) (cmds.length - (i + 1)) =
        (i + 1) :: List.range' (i + 2) (cmds.length - (i + 2)) := by
      rw [show cmds.length - (i + 1) = (cmds.length - (i + 2)) + 1 by omega,
        List.range'_succ]
    have h3 := List.range'_append 0 (i + 1) (cmds.length - (i + 1)) 1
    simp only [Nat.one_mul, Nat.zero_add] at h3
    rw [show cmds.length - (i + 1) + (i + 1) = cmds.length by omega] at h3
    have hsplit : List.range' 0 cmds.length =
        (List.range' 0 i ++ [i]) ++
          ((i + 1) :: List.range' (i + 2) (cmds.length - (i + 2))) := by
      rw [← h3, h1, h2]
    refine ⟨(List.range' 0 i).flatMap (cmdBlock outs) ++
        (Event.launched i :: (outs i).map (Event.output i)),
      ((outs (i + 1)).map (Event.output (i + 1)) ++ [Event.finished (i + 1)]) ++
        ((List.range' (i + 2) (cmds.length - (i + 2))).flatMap (cmdBlock outs) ++
          [Event.completed]), ?_, ?_⟩
    · rw [key, hsplit]
      simp [cmdBlock, List.flatMap_append, List.flatMap_cons, List.append_assoc]
    · intro line hline
      exact List.mem_append_right _
        (List.mem_cons_of_mem _ (List.mem_map_of_mem _ hline))

/-- Witness for `runner_trace_ordering` on a two-command queue. -/
theorem runner_trace_ordering_witness :
    (runFrom [["a"], ["b"]] (fun _ => ["o"]) 0).filter Event.isFinishedEvt =
      (List.range ([["a"], ["b"]] : List (List String)).length).map Event.finished ∧
    (runFrom [["a"], ["b"]] (fun _ => ["o"]) 0).getLast? = some Event.completed :=
  ⟨(runner_trace_ordering [["a"], ["b"]] (fun _ => ["o"])).1,
   (runner_trace_ordering [["a"], ["b"]] (fun _ => ["o"])).2.1⟩

end DumpXPack
